import Mathlib

/-!
# Verification of the TAP-Consumer parser and classifier

A shallow embedding of `tap_consumer/__init__.py` (OZI-Project/TAP-Consumer):
a pyparsing grammar for the Test Anything Protocol plus the `TAPTest` /
`TAPSummary` classifier, together with theorems checking the repository's
specification against this embedding.

Modelling conventions:
* The pyparsing grammar is embedded at line granularity: the input text is the
  list of its newline-separated lines, and each grammar production that the
  source terminates with `NL` becomes a function from one line (a `String`) to
  an optional parse result.  Character-level scanning inside a line follows the
  pyparsing semantics of the source (literal matches without word boundaries,
  whitespace = spaces and tabs, `restOfLine` keeping leading blanks).
  `SkipTo` resynchronisation is modelled as skipping whole lines; the inputs
  treated by the theorems below contain no TAP fragments hidden mid-line, where
  the character-level and line-level readings could differ.
* The YAML diagnostic block branch of `testLine` (`--- ... ...`) and the
  leading-comment capture (`("comments")`) are consumed but not recorded: the
  classifier in the source never reads either, and no claim below depends on
  them.
* Python `print` side effects (`print(results.tests)` and the
  `"ERROR! test %s out of sequence"` report) do not affect the returned
  summary; the sequence-anomaly reports are recorded in an extra `warnings`
  field so that the reporting behaviour is visible to the theorems.
* Python's `set(failedTests) - set(todoTests)` compares `TAPTest` objects by
  identity; the embedding compares them by value.  The two agree on the suite
  verdict: a failed test is (value- or identity-) present among the todo tests
  exactly when its `todo` flag is set, because the very same record is appended
  to both lists.
-/

/-! Lexical helpers (whitespace, digits, caseless literals) -/

/-- The grammar's significant-whitespace setting:
`ParserElement.setDefaultWhitespaceChars(" \t")`. -/
def isTapWS (c : Char) : Bool := c == ' ' || c == '\t'

/-- Skip leading spaces and tabs, as pyparsing does before matching a token. -/
def skipWS (cs : List Char) : List Char := cs.dropWhile isTapWS

/-- ASCII lower-casing of a character (used for `CaselessLiteral`). -/
def lowerChar (c : Char) : Char :=
  if 65 ≤ c.toNat && c.toNat ≤ 90 then Char.ofNat (c.toNat + 32) else c

/-- Matcher for `CaselessLiteral(lit)`: skip blanks, match `lit` case-insensitively with no
word-boundary requirement, and return the remaining characters.  `lit` is given
in lower case. -/
def caselessLit (lit : List Char) (cs : List Char) : Option (List Char) :=
  let t := skipWS cs
  if (t.take lit.length).map lowerChar == lit then some (t.drop lit.length) else none

/-- Numeric value of a digit string, as Python's `int`. -/
def digitsToNat (ds : List Char) : Nat :=
  ds.foldl (fun a c => 10 * a + (c.toNat - 48)) 0

/-! Directive sub-grammar

Source:
```
TODO, SKIP = map(CaselessLiteral, "TODO SKIP".split())
directive = Group(
    Suppress("#")
    + (
        TODO + restOfLine
        | FollowedBy(SKIP) + restOfLine.copy().setParseAction(lambda t: ["SKIP", t[0]])
    )
)
```
The argument is the text after the suppressed `#`.  The TODO branch consumes
the caseless literal and keeps the rest of the line as the reason; the SKIP
branch is a pure lookahead, so the reason is the whole text after `#`,
including the word SKIP itself and any blanks before it. -/

/-- A parsed trailing directive: `results.directive[0]` in the source, a pair
`[kind, reason]` with kind `"TODO"` or `"SKIP"`. -/
structure Directive where
  kind : String
  reason : String
deriving DecidableEq, Repr

/-- The directive grammar applied to the characters after `#`. -/
def directiveChars (cs : List Char) : Option Directive :=
  match caselessLit "todo".data cs with
  | some rest => some { kind := "TODO", reason := String.mk rest }
  | none =>
    match caselessLit "skip".data cs with
    | some _ => some { kind := "SKIP", reason := String.mk cs }
    | none => none

/-- The directive grammar on the comment text after `#`, as a `String`. -/
def directive (s : String) : Option Directive := directiveChars s.data

/-- The first blank-delimited word of a comment text (used to state the
specification's description of the directive grammar). -/
def firstWord (s : String) : String :=
  String.mk ((skipWS s.data).takeWhile (fun c => !isTapWS c))

/-! Raw document entries -/

/-- One parsed entry of the `tests` group: a test-result line
(`testLine`: status, optional explicit number, optional description, optional
directive) or a bail-out line (`bailLine` with its reason). -/
inductive Entry where
  | test (status : String) (testNumber : Option Nat) (description : Option String)
      (dir : Option Directive)
  | bail (reason : String)
deriving DecidableEq, Repr

/-- Does the entry come from `bailLine` (its `BAIL` results name is set)? -/
def Entry.isBail : Entry → Bool
  | .bail _ => true
  | .test .. => false

/-- An entry that is a failing test tagged with a TODO directive.  Used to
state the "no TODO-tagged failures" hypothesis of the specification. -/
def Entry.isTodoFailure : Entry → Bool
  | .test status _ _ (some d) => !(status == "ok") && (d.kind == "TODO")
  | _ => false

/-- The assembled document: optional version, optional plan upper bound, and
the ordered entry list, exactly the named results `version`, `plan.ubound`
and `tests` read by `TAPSummary.__init__`. -/
structure Document where
  version : Option Nat
  plan : Option Nat
  tests : List Entry
deriving DecidableEq, Repr

/-! Line parsers -/

/-- Test for `commentLine = Suppress("#") + empty + restOfLine`: a line whose first
non-blank character is `#`. -/
def isCommentLine (l : String) : Bool :=
  match skipWS l.data with
  | '#' :: _ => true
  | _ => false

/-- Parser for `version = Suppress('TAP version') + Word(nums[1:], nums, as_keyword=True)`
followed by `NL`: the literal, a blank, a digit word with no leading zero, and
nothing but blanks before the end of the line. -/
def parseVersionLine (l : String) : Option Nat :=
  let t := skipWS l.data
  if ("TAP version".data).isPrefixOf t then
    match t.drop 11 with
    | c :: r =>
      if isTapWS c then
        let r2 := skipWS (c :: r)
        let ds := r2.takeWhile Char.isDigit
        match ds with
        | [] => none
        | d0 :: _ =>
          if d0 == '0' then none
          else if (skipWS (r2.drop ds.length)).isEmpty then some (digitsToNat ds)
          else none
      else none
    | [] => none
  else none

/-- Parser for `plan = "1.." + integer("ubound")` followed by `NL`. -/
def parsePlanLine (l : String) : Option Nat :=
  let t := skipWS l.data
  if ("1..".data).isPrefixOf t then
    let r := skipWS (t.drop 3)
    let ds := r.takeWhile Char.isDigit
    if ds.isEmpty then none
    else if (skipWS (r.drop ds.length)).isEmpty then some (digitsToNat ds)
    else none
  else none

/-- Parser for `bailLine = Group(Literal("Bail out!")("BAIL") + empty +
Optional(restOfLine)("reason"))` followed by `NL`; `empty` eats the blanks
after the literal before `restOfLine` captures the reason. -/
def parseBailLine (l : String) : Option String :=
  let t := skipWS l.data
  if ("Bail out!".data).isPrefixOf t then some (String.mk (skipWS (t.drop 9)))
  else none

/-- The single-line part of `testLine` followed by `NL`: status keyword
(`ok` tried before `not ok`, plain literals without word boundaries), then
`Optional(integer)("testNumber")`, then `Optional(description)` (a run of
characters other than `#`, with leading `"- "` characters stripped by its
parse action), then `Optional(directive)`.  The whole line must be consumed:
a trailing comment that is not a directive makes `NL` fail right after the
group, so the line does not parse as a test entry.  The multi-line YAML
diagnostic block and leading comment lines are handled by the entry loop. -/
def parseTestLine (l : String) : Option Entry :=
  let s0 := skipWS l.data
  let st? : Option (String × List Char) :=
    if ("ok".data).isPrefixOf s0 then some ("ok", s0.drop 2)
    else if ("not ok".data).isPrefixOf s0 then some ("not ok", s0.drop 6)
    else none
  match st? with
  | none => none
  | some (status, s1) =>
    let s2 := skipWS s1
    let ds := s2.takeWhile Char.isDigit
    let testNumber : Option Nat := if ds.isEmpty then none else some (digitsToNat ds)
    let s3 := if ds.isEmpty then s2 else s2.drop ds.length
    let s4 := skipWS s3
    let descTok := s4.takeWhile (fun c => !(c == '#'))
    let description : Option String :=
      if descTok.isEmpty then none
      else some (String.mk (descTok.dropWhile (fun c => c == '-' || c == ' ')))
    let s5 := if descTok.isEmpty then s4 else s4.drop descTok.length
    match s5 with
    | [] => some (Entry.test status testNumber description none)
    | '#' :: rest =>
      match directiveChars rest with
      | some d => some (Entry.test status testNumber description (some d))
      | none => none
    | _ => none

/-! Stream grammar / document assembler

Source:
```
tap_parser = Optional(Group(Suppress(SkipTo(version)) + version)('version') + NL)
           + Optional(Group(plan)("plan") + NL)
           & Group(OneOrMore((testLine | Suppress(SkipTo(testLine)) + testLine
                              | bailLine) + NL))("tests")
```
`+` binds tighter than `&`, and pyparsing's `Each` tries its components in
order at the current position, so the optional version part (with its
skip-ahead) runs first, then the optional plan line, then the entry loop. -/

/-- Model of `Suppress(SkipTo(version)) + version + NL`: discard lines until one parses
as a version line; fail (consuming nothing) if there is none. -/
def findVersion : List String → Option (Nat × List String)
  | [] => none
  | l :: rest =>
    match parseVersionLine l with
    | some n => some (n, rest)
    | none => findVersion rest

/-- Step for `testLine`'s leading `Optional(OneOrMore(commentLine + NL))("comments")`
followed by the test line itself: consume a run of comment lines only if a
test line follows directly. -/
def tryTestAt (ls : List String) : Option (Entry × List String) :=
  match ls.dropWhile isCommentLine with
  | [] => none
  | l :: rest =>
    match parseTestLine l with
    | some e => some (e, rest)
    | none => none

/-- Model of `testLine | Suppress(SkipTo(testLine)) + testLine`: a test entry at the
current line, or after discarding non-matching lines. -/
def skipToTest : List String → Option (Entry × List String)
  | [] => none
  | l :: rest =>
    match tryTestAt (l :: rest) with
    | some r => some r
    | none => skipToTest rest

/-- The entry loop `OneOrMore((testLine | Suppress(SkipTo(testLine)) + testLine
| bailLine) + NL)`.  A bail line is only reached when no test line occurs
anywhere later (the skip-ahead alternative is tried before `bailLine`).  The
fuel argument bounds the iteration count by the number of lines; every
iteration consumes at least one line, so `ls.length` fuel is never exhausted
early. -/
def parseEntriesFuel : Nat → List String → List Entry
  | 0, _ => []
  | Nat.succ fuel, ls =>
    match skipToTest ls with
    | some (e, rest) => e :: parseEntriesFuel fuel rest
    | none =>
      match ls with
      | [] => []
      | l :: rest =>
        match parseBailLine l with
        | some reason => Entry.bail reason :: parseEntriesFuel fuel rest
        | none => []

/-- The assembled-document grammar `tap_parser` of the source (named
`tapParser` here), over the list of input lines.  Returns `none` exactly when
the one-or-more entry group cannot match at all. -/
def tapParser (lines : List String) : Option Document :=
  let verPart : Option Nat × List String :=
    match findVersion lines with
    | some (n, rest) => (some n, rest)
    | none => (none, lines)
  let planPart : Option Nat × List String :=
    match verPart.2 with
    | [] => (none, [])
    | l :: rest =>
      match parsePlanLine l with
      | some ubound => (some ubound, rest)
      | none => (none, l :: rest)
  let entries := parseEntriesFuel planPart.2.length planPart.2
  if entries.isEmpty then none
  else some { version := verPart.1, plan := planPart.1, tests := entries }

/-! Classified tests (`TAPTest`) -/

/-- A classified test: `TAPTest.__init__` reads the resolved `testNumber`, the
status, and the directive kind. -/
structure TAPTest where
  num : Nat
  passed : Bool
  skipped : Bool
  todo : Bool
deriving DecidableEq, Repr

/-- Constructor `TAPTest(results)` with the resolved test number already stored in
`results["testNumber"]`: `passed = (results.passed == "ok")`,
`skipped = (directive kind == "SKIP")`, `todo = (directive kind == "TODO")`. -/
def mkTAPTest (status : String) (num : Nat) (dir : Option Directive) : TAPTest :=
  { num := num
    passed := status == "ok"
    skipped := match dir with | some d => d.kind == "SKIP" | none => false
    todo := match dir with | some d => d.kind == "TODO" | none => false }

/-- Placeholder `TAPTest.bailedTest(num)`: a placeholder built from an empty parse result
(`passed` and `todo` false), with `skipped` forced to true and the given
number. -/
def TAPTest.bailedTest (num : Nat) : TAPTest :=
  { num := num, passed := false, skipped := true, todo := false }

/-! The classifier (`TAPSummary.__init__`) -/

/-- The summary object built by `TAPSummary.__init__`.  The `warnings` field
records the explicit test numbers reported by the
`"ERROR! test %s out of sequence"` prints, which in the source go to stdout
rather than into an attribute. -/
structure TAPSummary where
  passedTests : List TAPTest
  failedTests : List TAPTest
  skippedTests : List TAPTest
  todoTests : List TAPTest
  bonusTests : List TAPTest
  bail : Bool
  bailReason : Option String
  version : Nat
  passedSuite : Bool
  warnings : List Nat
deriving DecidableEq, Repr

/-- Range `expected = list(range(1, ubound + 1))` when a plan was parsed, else
`list(range(1, len(results.tests) + 1))`. -/
def expectedRange (doc : Document) : List Nat :=
  match doc.plan with
  | some ubound => List.range' 1 ubound
  | none => List.range' 1 doc.tests.length

/-- The entry loop of `TAPSummary.__init__`: `i` is the 0-based loop index.
On a bail entry the remaining expected numbers become skipped placeholders and
the loop breaks; otherwise the running number `i + 1` is replaced by the
explicit number when present (reporting a warning when they differ), the
`TAPTest` is built, and it is appended to the per-category lists. -/
def classifyLoop (expected : List Nat) : Nat → List Entry → TAPSummary → TAPSummary
  | _, [], s => s
  | i, Entry.bail reason :: _, s =>
    { s with
      bail := true
      skippedTests := s.skippedTests ++ (expected.drop i).map TAPTest.bailedTest
      bailReason := some reason }
  | i, Entry.test status testNumber _ dir :: rest, s =>
    let warn : List Nat :=
      match testNumber with
      | some n => if i + 1 ≠ n then [n] else []
      | none => []
    let t := mkTAPTest status (testNumber.getD (i + 1)) dir
    classifyLoop expected (i + 1) rest
      { s with
        passedTests := s.passedTests ++ (if t.passed then [t] else [])
        failedTests := s.failedTests ++ (if t.passed then [] else [t])
        skippedTests := s.skippedTests ++ (if t.skipped then [t] else [])
        todoTests := s.todoTests ++ (if t.todo then [t] else [])
        bonusTests := s.bonusTests ++ (if t.todo && t.passed then [t] else [])
        warnings := s.warnings ++ warn }

/-- The suite verdict computed after the loop:
`self.passedSuite = not self.bail and (set(failedTests) - set(todoTests) == set())`. -/
def TAPSummary.setVerdict (s : TAPSummary) : TAPSummary :=
  { s with
    passedSuite :=
      !s.bail && (s.failedTests.filter (fun t => !(decide (t ∈ s.todoTests)))).isEmpty }

/-- Classifier `TAPSummary.__init__(results)` over an assembled document:
`self.version = results.version[0] if results.version else 12`, then the entry
loop from empty lists, then the verdict. -/
def mkTAPSummary (doc : Document) : TAPSummary :=
  TAPSummary.setVerdict
    (classifyLoop (expectedRange doc) 0 doc.tests
      { passedTests := [], failedTests := [], skippedTests := [], todoTests := []
        bonusTests := [], bail := false, bailReason := none
        version := doc.version.getD 12, passedSuite := false, warnings := [] })

/-- The full pipeline: `tap_parser.setParseAction(TAPSummary)` makes the parse
result of `tap_parser.parse_string` the `TAPSummary` itself. -/
def parseTAP (lines : List String) : Option TAPSummary :=
  (tapParser lines).map mkTAPSummary

/-! The textual report (`TAPSummary.summary`) -/

/-- Helper `testListStr`: `"[" + ",".join(str(t.num) for t in tl) + "]"`. -/
def testListStr (tl : List TAPTest) : String :=
  "[" ++ String.intercalate "," (tl.map (fun t => toString t.num)) ++ "]"

/-- Renderer `TAPSummary.summary(showPassed, showAll)`: version line, conditional
PASSED / FAILED / SKIPPED / TODO / BONUS lists, final verdict line, joined
with newlines. -/
def TAPSummary.summary (self : TAPSummary) (showPassed : Bool) (showAll : Bool) : String :=
  let t1 := ["TAP version: " ++ toString self.version]
  let t2 := if showPassed || showAll then t1 ++ ["PASSED: " ++ testListStr self.passedTests] else t1
  let t3 := if !self.failedTests.isEmpty || showAll then t2 ++ ["FAILED: " ++ testListStr self.failedTests] else t2
  let t4 := if !self.skippedTests.isEmpty || showAll then t3 ++ ["SKIPPED: " ++ testListStr self.skippedTests] else t3
  let t5 := if !self.todoTests.isEmpty || showAll then t4 ++ ["TODO: " ++ testListStr self.todoTests] else t4
  let t6 := if !self.bonusTests.isEmpty || showAll then t5 ++ ["BONUS: " ++ testListStr self.bonusTests] else t5
  let t7 := t6 ++ [if self.passedSuite then "PASSED" else "FAILED"]
  String.intercalate "\n" t7

/-! Characterisations of the classifier loop

The following definitions give a closed form for `classifyLoop`, used by the
theorems below: the classified tests in encounter order (stopping at the first
bail entry), the reported out-of-sequence numbers, the synthesized bail
placeholders, and the first bail reason. -/

/-- The `TAPTest` records built by the loop before the first bail entry, with
`i` the 0-based index of the first listed entry. -/
def classifiedTests : Nat → List Entry → List TAPTest
  | _, [] => []
  | _, Entry.bail _ :: _ => []
  | i, Entry.test status testNumber _ dir :: rest =>
    mkTAPTest status (testNumber.getD (i + 1)) dir :: classifiedTests (i + 1) rest

/-- The explicit test numbers reported out of sequence before the first bail
entry. -/
def seqWarnings : Nat → List Entry → List Nat
  | _, [] => []
  | _, Entry.bail _ :: _ => []
  | i, Entry.test _ testNumber _ _ :: rest =>
    (match testNumber with
     | some n => if i + 1 ≠ n then [n] else []
     | none => []) ++ seqWarnings (i + 1) rest

/-- The skipped placeholders synthesized at the first bail entry. -/
def bailSkipped (expected : List Nat) : Nat → List Entry → List TAPTest
  | _, [] => []
  | i, Entry.bail _ :: _ => (expected.drop i).map TAPTest.bailedTest
  | i, Entry.test .. :: rest => bailSkipped expected (i + 1) rest

/-- The reason of the first bail entry, if any. -/
def firstBailReason : List Entry → Option String
  | [] => none
  | Entry.bail r :: _ => some r
  | Entry.test .. :: rest => firstBailReason rest

/-! Theorems -/

/-- Closed form of the classifier loop. -/
theorem classifyLoop_spec (expected : List Nat) (tests : List Entry) (i : Nat)
    (s : TAPSummary) :
    classifyLoop expected i tests s =
      { s with
        passedTests := s.passedTests ++ (classifiedTests i tests).filter (fun t => t.passed)
        failedTests := s.failedTests ++ (classifiedTests i tests).filter (fun t => !t.passed)
        skippedTests := s.skippedTests ++ (classifiedTests i tests).filter (fun t => t.skipped)
          ++ bailSkipped expected i tests
        todoTests := s.todoTests ++ (classifiedTests i tests).filter (fun t => t.todo)
        bonusTests := s.bonusTests
          ++ (classifiedTests i tests).filter (fun t => t.todo && t.passed)
        warnings := s.warnings ++ seqWarnings i tests
        bail := s.bail || (firstBailReason tests).isSome
        bailReason :=
          match firstBailReason tests with
          | some r => some r
          | none => s.bailReason } := by
  induction tests generalizing i s with
  | nil =>
    simp [classifyLoop, classifiedTests, seqWarnings, bailSkipped, firstBailReason]
  | cons e rest ih =>
    cases e with
    | bail r =>
      simp [classifyLoop, classifiedTests, seqWarnings, bailSkipped, firstBailReason]
    | test status testNumber d dir =>
      simp only [classifyLoop]
      rw [ih]
      simp only [classifiedTests, seqWarnings, bailSkipped, firstBailReason,
        List.filter_cons, List.append_assoc]
      cases hp : (mkTAPTest status (testNumber.getD (i + 1)) dir).passed <;>
        cases hs : (mkTAPTest status (testNumber.getD (i + 1)) dir).skipped <;>
        cases ht : (mkTAPTest status (testNumber.getD (i + 1)) dir).todo <;>
        simp [hp, hs, ht]

/-- Lemma: `setVerdict` only writes the `passedSuite` field. -/
theorem setVerdict_passedSuite (s : TAPSummary) :
    s.setVerdict.passedSuite =
      (!s.bail && (s.failedTests.filter (fun t => !(decide (t ∈ s.todoTests)))).isEmpty) := rfl

/-- The failed list of a summary, in closed form. -/
theorem mkTAPSummary_failedTests (doc : Document) :
    (mkTAPSummary doc).failedTests =
      (classifiedTests 0 doc.tests).filter (fun t => !t.passed) := by
  simp [mkTAPSummary, TAPSummary.setVerdict, classifyLoop_spec]

/-- The passed list of a summary, in closed form. -/
theorem mkTAPSummary_passedTests (doc : Document) :
    (mkTAPSummary doc).passedTests =
      (classifiedTests 0 doc.tests).filter (fun t => t.passed) := by
  simp [mkTAPSummary, TAPSummary.setVerdict, classifyLoop_spec]

/-- The skipped list of a summary, in closed form. -/
theorem mkTAPSummary_skippedTests (doc : Document) :
    (mkTAPSummary doc).skippedTests =
      (classifiedTests 0 doc.tests).filter (fun t => t.skipped)
        ++ bailSkipped (expectedRange doc) 0 doc.tests := by
  simp [mkTAPSummary, TAPSummary.setVerdict, classifyLoop_spec]

/-- The todo list of a summary, in closed form. -/
theorem mkTAPSummary_todoTests (doc : Document) :
    (mkTAPSummary doc).todoTests =
      (classifiedTests 0 doc.tests).filter (fun t => t.todo) := by
  simp [mkTAPSummary, TAPSummary.setVerdict, classifyLoop_spec]

/-- The bonus list of a summary, in closed form. -/
theorem mkTAPSummary_bonusTests (doc : Document) :
    (mkTAPSummary doc).bonusTests =
      (classifiedTests 0 doc.tests).filter (fun t => t.todo && t.passed) := by
  simp [mkTAPSummary, TAPSummary.setVerdict, classifyLoop_spec]

/-- The warnings of a summary, in closed form. -/
theorem mkTAPSummary_warnings (doc : Document) :
    (mkTAPSummary doc).warnings = seqWarnings 0 doc.tests := by
  simp [mkTAPSummary, TAPSummary.setVerdict, classifyLoop_spec]

/-- The bail flag of a summary, in closed form. -/
theorem mkTAPSummary_bail (doc : Document) :
    (mkTAPSummary doc).bail = (firstBailReason doc.tests).isSome := by
  simp [mkTAPSummary, TAPSummary.setVerdict, classifyLoop_spec]

/-- The bail reason of a summary, in closed form. -/
theorem mkTAPSummary_bailReason (doc : Document) :
    (mkTAPSummary doc).bailReason = firstBailReason doc.tests := by
  simp only [mkTAPSummary, TAPSummary.setVerdict, classifyLoop_spec]
  cases firstBailReason doc.tests <;> rfl

/-- The version of a summary, in closed form. -/
theorem mkTAPSummary_version (doc : Document) :
    (mkTAPSummary doc).version = doc.version.getD 12 := by
  simp [mkTAPSummary, TAPSummary.setVerdict, classifyLoop_spec]

/-- The verdict of a summary, through its own failed and todo lists. -/
theorem mkTAPSummary_passedSuite (doc : Document) :
    (mkTAPSummary doc).passedSuite =
      (!(mkTAPSummary doc).bail &&
        ((mkTAPSummary doc).failedTests.filter
          (fun t => !(decide (t ∈ (mkTAPSummary doc).todoTests)))).isEmpty) := by
  simp only [mkTAPSummary, setVerdict_passedSuite, TAPSummary.setVerdict]

/-- A single `TAPTest` never has both the skipped and the todo flag: both come
from the same directive kind. -/
theorem mkTAPTest_skipped_and_todo (status : String) (n : Nat) (dir : Option Directive) :
    ((mkTAPTest status n dir).skipped && (mkTAPTest status n dir).todo) = false := by
  cases dir with
  | none => rfl
  | some d =>
    simp only [mkTAPTest]
    by_cases h : d.kind = "TODO" <;> simp [h]

/-- Splitting a list by a boolean predicate preserves the length. -/
theorem length_filter_add_length_filter_not {α : Type} (p : α → Bool) (l : List α) :
    (l.filter p).length + (l.filter (fun a => !p a)).length = l.length := by
  induction l with
  | nil => rfl
  | cons a l ih =>
    cases h : p a <;> simp [List.filter_cons, h, ← ih] <;> omega

/-- Dropping from `range'` yields a shifted `range'`. -/
theorem range'_drop (s k : Nat) : ∀ n, (List.range' s n).drop k = List.range' (s + k) (n - k) := by
  induction k generalizing s with
  | zero => intro n; simp
  | succ k ih =>
    intro n
    cases n with
    | zero => simp
    | succ n =>
      rw [List.range'_succ, List.drop_succ_cons, ih (s + 1)]
      congr 1 <;> omega

/-- Without a bail entry, no bail reason is found. -/
theorem firstBailReason_eq_none {tests : List Entry}
    (h : ∀ e ∈ tests, e.isBail = false) : firstBailReason tests = none := by
  induction tests with
  | nil => rfl
  | cons e rest ih =>
    cases e with
    | bail r => simpa [Entry.isBail] using h (Entry.bail r) (by simp)
    | test status tn d dir =>
      simpa [firstBailReason] using ih (fun x hx => h x (by simp [hx]))

/-- Without a bail entry, no placeholders are synthesized. -/
theorem bailSkipped_eq_nil {tests : List Entry} (expected : List Nat)
    (h : ∀ e ∈ tests, e.isBail = false) : ∀ i, bailSkipped expected i tests = [] := by
  induction tests with
  | nil => intro i; rfl
  | cons e rest ih =>
    intro i
    cases e with
    | bail r => simpa [Entry.isBail] using h (Entry.bail r) (by simp)
    | test status tn d dir =>
      simpa [bailSkipped] using ih (fun x hx => h x (by simp [hx])) (i + 1)

/-- Without a bail entry, every entry yields a classified test. -/
theorem classifiedTests_length {tests : List Entry}
    (h : ∀ e ∈ tests, e.isBail = false) :
    ∀ i, (classifiedTests i tests).length = tests.length := by
  induction tests with
  | nil => intro i; rfl
  | cons e rest ih =>
    intro i
    cases e with
    | bail r => simpa [Entry.isBail] using h (Entry.bail r) (by simp)
    | test status tn d dir =>
      simpa [classifiedTests] using ih (fun x hx => h x (by simp [hx])) (i + 1)

/-- Every classified test is an `mkTAPTest` image. -/
theorem classifiedTests_mem {tests : List Entry} {t : TAPTest} :
    ∀ {i}, t ∈ classifiedTests i tests →
      ∃ status n dir, t = mkTAPTest status n dir := by
  induction tests with
  | nil => intro i h; cases h
  | cons e rest ih =>
    intro i h
    cases e with
    | bail r => cases h
    | test status tn d dir =>
      rcases List.mem_cons.mp h with h1 | h2
      · exact ⟨status, tn.getD (i + 1), dir, h1⟩
      · exact ih h2

/-- The classified test of the entry at index `j`. -/
theorem classifiedTests_getElem {tests : List Entry}
    (h : ∀ e ∈ tests, e.isBail = false) :
    ∀ {i j} (hj : j < tests.length) {status tn d dir},
      tests[j] = Entry.test status tn d dir →
      mkTAPTest status (tn.getD (i + j + 1)) dir ∈ classifiedTests i tests := by
  induction tests with
  | nil => intro i j hj; simp at hj
  | cons e rest ih =>
    intro i j hj status tn d dir he
    cases e with
    | bail r => simpa [Entry.isBail] using h (Entry.bail r) (by simp)
    | test status0 tn0 d0 dir0 =>
      cases j with
      | zero =>
        simp only [List.getElem_cons_zero, Entry.test.injEq] at he
        obtain ⟨h1, h2, h3, h4⟩ := he
        subst h1; subst h2; subst h3; subst h4
        simp [classifiedTests]
      | succ j =>
        simp only [List.getElem_cons_succ] at he
        have := ih (fun x hx => h x (by simp [hx]))
          (i := i + 1) (j := j) (by simpa using Nat.lt_of_succ_lt_succ hj) he
        simp only [classifiedTests, List.mem_cons]
        right
        have harith : i + 1 + j + 1 = i + (j + 1) + 1 := by omega
        rwa [harith] at this

/-- An out-of-sequence explicit number is reported. -/
theorem seqWarnings_mem {tests : List Entry}
    (h : ∀ e ∈ tests, e.isBail = false) :
    ∀ {i j} (hj : j < tests.length) {status n d dir},
      tests[j] = Entry.test status (some n) d dir →
      n ≠ i + j + 1 → n ∈ seqWarnings i tests := by
  induction tests with
  | nil => intro i j hj; simp at hj
  | cons e rest ih =>
    intro i j hj status n d dir he hne
    cases e with
    | bail r => simpa [Entry.isBail] using h (Entry.bail r) (by simp)
    | test status0 tn0 d0 dir0 =>
      cases j with
      | zero =>
        simp only [List.getElem_cons_zero, Entry.test.injEq] at he
        obtain ⟨h1, h2, h3, h4⟩ := he
        subst h2
        simp only [seqWarnings, List.mem_append]
        left
        have hne1 : i + 1 ≠ n := by omega
        simp [hne1]
      | succ j =>
        have := ih (fun x hx => h x (by simp [hx]))
          (i := i + 1) (j := j) (by simpa using Nat.lt_of_succ_lt_succ hj)
          (by simpa using he) (by omega)
        simp only [seqWarnings, List.mem_append]
        right
        exact this

/-- A classified test with the skipped flag never has the todo flag. -/
theorem classifiedTests_skipped_not_todo {tests : List Entry} {i : Nat} {t : TAPTest}
    (hmem : t ∈ classifiedTests i tests) (hs : t.skipped = true) : t.todo = false := by
  obtain ⟨status, n, dir, rfl⟩ := classifiedTests_mem hmem
  have := mkTAPTest_skipped_and_todo status n dir
  rw [hs] at this
  simpa using this

/-- Placeholders synthesized at a bail entry are skipped and never todo. -/
theorem bailSkipped_mem {expected : List Nat} {tests : List Entry} {t : TAPTest} :
    ∀ {i}, t ∈ bailSkipped expected i tests → t.skipped = true ∧ t.todo = false := by
  induction tests with
  | nil => intro i h; cases h
  | cons e rest ih =>
    intro i h
    cases e with
    | bail r =>
      simp only [bailSkipped, List.mem_map] at h
      obtain ⟨n, _, rfl⟩ := h
      exact ⟨rfl, rfl⟩
    | test status tn d dir => exact ih h

/-- Without TODO-tagged failures, every failing classified test lacks the todo
flag. -/
theorem classifiedTests_failed_not_todo {tests : List Entry}
    (h : ∀ e ∈ tests, e.isTodoFailure = false) :
    ∀ {i t}, t ∈ classifiedTests i tests → t.passed = false → t.todo = false := by
  induction tests with
  | nil => intro i t hmem; cases hmem
  | cons e rest ih =>
    intro i t hmem hp
    cases e with
    | bail r => cases hmem
    | test status tn d dir =>
      rcases List.mem_cons.mp hmem with h1 | h2
      · subst h1
        have he : Entry.isTodoFailure (Entry.test status tn d dir) = false :=
          h _ (by simp)
        cases dir with
        | none => rfl
        | some dd =>
          simp only [Entry.isTodoFailure, Bool.and_eq_false_imp,
            Bool.not_eq_false'] at he
          simp only [mkTAPTest] at hp ⊢
          exact he (by simp [hp])
      · exact ih (fun x hx => h x (by simp [hx])) h2 hp

/-- Classified tests of a list ending in a bail entry are those of the prefix
before the bail. -/
theorem classifiedTests_append_bail {pre : List Entry}
    (h : ∀ e ∈ pre, e.isBail = false) (r : String) (post : List Entry) :
    ∀ i, classifiedTests i (pre ++ Entry.bail r :: post) = classifiedTests i pre := by
  induction pre with
  | nil => intro i; rfl
  | cons e rest ih =>
    intro i
    cases e with
    | bail r0 => simpa [Entry.isBail] using h (Entry.bail r0) (by simp)
    | test status tn d dir =>
      simp only [List.cons_append, classifiedTests, List.append_eq]
      rw [ih (fun x hx => h x (by simp [hx])) (i + 1)]

/-- Warnings of a list ending in a bail entry are those of the prefix. -/
theorem seqWarnings_append_bail {pre : List Entry}
    (h : ∀ e ∈ pre, e.isBail = false) (r : String) (post : List Entry) :
    ∀ i, seqWarnings i (pre ++ Entry.bail r :: post) = seqWarnings i pre := by
  induction pre with
  | nil => intro i; rfl
  | cons e rest ih =>
    intro i
    cases e with
    | bail r0 => simpa [Entry.isBail] using h (Entry.bail r0) (by simp)
    | test status tn d dir =>
      simp only [List.cons_append, seqWarnings, List.append_eq]
      rw [ih (fun x hx => h x (by simp [hx])) (i + 1)]

/-- The placeholders synthesized for a bail entry after a bail-free prefix. -/
theorem bailSkipped_append_bail {pre : List Entry}
    (h : ∀ e ∈ pre, e.isBail = false) (expected : List Nat) (r : String)
    (post : List Entry) :
    ∀ i, bailSkipped expected i (pre ++ Entry.bail r :: post) =
      (expected.drop (i + pre.length)).map TAPTest.bailedTest := by
  induction pre with
  | nil => intro i; simp [bailSkipped]
  | cons e rest ih =>
    intro i
    cases e with
    | bail r0 => simpa [Entry.isBail] using h (Entry.bail r0) (by simp)
    | test status tn d dir =>
      simp only [List.cons_append, bailSkipped, List.append_eq]
      rw [ih (fun x hx => h x (by simp [hx])) (i + 1)]
      congr 2
      simp [Nat.add_comm, Nat.add_assoc, Nat.add_left_comm]

/-- The first bail reason of a bail-free prefix followed by a bail entry. -/
theorem firstBailReason_append_bail {pre : List Entry}
    (h : ∀ e ∈ pre, e.isBail = false) (r : String) (post : List Entry) :
    firstBailReason (pre ++ Entry.bail r :: post) = some r := by
  induction pre with
  | nil => rfl
  | cons e rest ih =>
    cases e with
    | bail r0 => simpa [Entry.isBail] using h (Entry.bail r0) (by simp)
    | test status tn d dir =>
      simp only [List.cons_append, firstBailReason]
      exact ih (fun x hx => h x (by simp [hx]))

/-- C1: for every assembled document, the suite verdict is true iff the bail
flag is false and every failed test also occurs in the todo list; and for
every document with no bail entry and no TODO-tagged failure, the verdict
equals emptiness of the failed list. -/
theorem c1_suite_verdict (doc : Document) :
    ((mkTAPSummary doc).passedSuite = true ↔
      ((mkTAPSummary doc).bail = false ∧
        ∀ t ∈ (mkTAPSummary doc).failedTests, t ∈ (mkTAPSummary doc).todoTests)) ∧
    (doc.tests.all (fun e => !e.isBail) = true →
      doc.tests.all (fun e => !e.isTodoFailure) = true →
      (mkTAPSummary doc).passedSuite = (mkTAPSummary doc).failedTests.isEmpty) := by
  constructor
  · rw [mkTAPSummary_passedSuite]
    constructor
    · intro h
      rw [Bool.and_eq_true] at h
      obtain ⟨h1, h2⟩ := h
      refine ⟨by simpa using h1, ?_⟩
      intro t ht
      rw [List.isEmpty_iff, List.filter_eq_nil_iff] at h2
      simpa using h2 t ht
    · rintro ⟨h1, h2⟩
      simp only [h1, Bool.not_false, Bool.true_and]
      rw [List.isEmpty_iff, List.filter_eq_nil_iff]
      intro t ht
      simpa using h2 t ht
  · intro hb ht
    have hb1 : ∀ e ∈ doc.tests, e.isBail = false := by
      intro e he
      simpa using List.all_eq_true.mp hb e he
    have ht1 : ∀ e ∈ doc.tests, e.isTodoFailure = false := by
      intro e he
      simpa using List.all_eq_true.mp ht e he
    rw [mkTAPSummary_passedSuite, mkTAPSummary_bail, firstBailReason_eq_none hb1]
    have hfilter : (mkTAPSummary doc).failedTests.filter
        (fun t => !(decide (t ∈ (mkTAPSummary doc).todoTests)))
        = (mkTAPSummary doc).failedTests := by
      apply List.filter_eq_self.mpr
      intro t htmem
      rw [mkTAPSummary_failedTests] at htmem
      have hmf := List.mem_filter.mp htmem
      have hpass : t.passed = false := by simpa using hmf.2
      have htodo : t.todo = false := classifiedTests_failed_not_todo ht1 hmf.1 hpass
      have hnotin : t ∉ (mkTAPSummary doc).todoTests := by
        rw [mkTAPSummary_todoTests]
        intro hcon
        have hx := (List.mem_filter.mp hcon).2
        rw [htodo] at hx
        cases hx
      simp [hnotin]
    rw [hfilter]
    simp

/-- Witness for C1 at a concrete two-test document (one pass, one plain
failure): the verdict equals emptiness of the failed list. -/
theorem c1_suite_verdict_witness :
    (mkTAPSummary ⟨none, some 2, [Entry.test "ok" (some 1) none none,
        Entry.test "not ok" (some 2) none none]⟩).passedSuite =
      (mkTAPSummary ⟨none, some 2, [Entry.test "ok" (some 1) none none,
        Entry.test "not ok" (some 2) none none]⟩).failedTests.isEmpty :=
  (c1_suite_verdict ⟨none, some 2, [Entry.test "ok" (some 1) none none,
    Entry.test "not ok" (some 2) none none]⟩).2 (by decide) (by decide)

/-- C2: with a declared plan of size `N` and a bail entry at 1-based position
`pre.length + 1`, the classifier sets the bail flag, captures the reason,
appends placeholders for exactly the sequence numbers `pre.length + 1 .. N`
after the genuinely skipped tests of the prefix, and the summary does not
depend on the entries after the bail entry. -/
theorem c2_bailout (v : Option Nat) (N : Nat) (pre post post2 : List Entry) (r : String)
    (h : pre.all (fun e => !e.isBail) = true) :
    (mkTAPSummary ⟨v, some N, pre ++ Entry.bail r :: post⟩).bail = true ∧
    (mkTAPSummary ⟨v, some N, pre ++ Entry.bail r :: post⟩).bailReason = some r ∧
    (mkTAPSummary ⟨v, some N, pre ++ Entry.bail r :: post⟩).skippedTests =
      (mkTAPSummary ⟨v, some N, pre⟩).skippedTests
        ++ (List.range' (pre.length + 1) (N - pre.length)).map TAPTest.bailedTest ∧
    mkTAPSummary ⟨v, some N, pre ++ Entry.bail r :: post2⟩ =
      mkTAPSummary ⟨v, some N, pre ++ Entry.bail r :: post⟩ := by
  have h1 : ∀ e ∈ pre, e.isBail = false := by
    intro e he
    simpa using List.all_eq_true.mp h e he
  have hexp : ∀ tests : List Entry,
      expectedRange ⟨v, some N, tests⟩ = List.range' 1 N := fun _ => rfl
  have hdrop : (List.range' 1 N).drop pre.length =
      List.range' (pre.length + 1) (N - pre.length) := by
    rw [range'_drop]
    congr 1
    omega
  refine ⟨?_, ?_, ?_, ?_⟩
  · rw [mkTAPSummary_bail]
    simp [firstBailReason_append_bail h1 r post]
  · rw [mkTAPSummary_bailReason]
    exact firstBailReason_append_bail h1 r post
  · rw [mkTAPSummary_skippedTests, mkTAPSummary_skippedTests]
    simp only [hexp]
    rw [classifiedTests_append_bail h1 r post 0,
      bailSkipped_append_bail h1 (List.range' 1 N) r post 0,
      bailSkipped_eq_nil (List.range' 1 N) h1 0]
    simp only [Nat.zero_add, List.append_nil, hdrop]
  · have hcls := classifiedTests_append_bail h1 r
    have hw := seqWarnings_append_bail h1 r
    have hbs := bailSkipped_append_bail h1 (List.range' 1 N) r
    have hfb := firstBailReason_append_bail h1 r
    simp only [mkTAPSummary, TAPSummary.setVerdict, classifyLoop_spec, hexp,
      hcls post 0, hcls post2 0, hw post 0, hw post2 0, hbs post 0, hbs post2 0,
      hfb post, hfb post2]

/-- Witness for C2: scenario `1..5`, one passing test, then a bail-out; the
placeholders cover 2..5, and an entry after the bail entry is ignored. -/
theorem c2_bailout_witness :
    (mkTAPSummary ⟨none, some 5, [Entry.test "ok" (some 1) none none]
        ++ Entry.bail "db down" :: []⟩).bail = true ∧
    (mkTAPSummary ⟨none, some 5, [Entry.test "ok" (some 1) none none]
        ++ Entry.bail "db down" :: []⟩).bailReason = some "db down" ∧
    (mkTAPSummary ⟨none, some 5, [Entry.test "ok" (some 1) none none]
        ++ Entry.bail "db down" :: []⟩).skippedTests =
      (mkTAPSummary ⟨none, some 5, [Entry.test "ok" (some 1) none none]⟩).skippedTests
        ++ (List.range' ([Entry.test "ok" (some 1) none none].length + 1)
            (5 - [Entry.test "ok" (some 1) none none].length)).map TAPTest.bailedTest ∧
    mkTAPSummary ⟨none, some 5, [Entry.test "ok" (some 1) none none]
        ++ Entry.bail "db down" :: [Entry.test "not ok" (some 9) none none]⟩ =
      mkTAPSummary ⟨none, some 5, [Entry.test "ok" (some 1) none none]
        ++ Entry.bail "db down" :: []⟩ :=
  c2_bailout none 5 [Entry.test "ok" (some 1) none none] []
    [Entry.test "not ok" (some 9) none none] "db down" (by decide)

/-- Counterexample to C3 as stated: the comment `# skipped 3 tests` has first
word `skipped`, which is not `TODO` or `SKIP` in any casing, yet the directive
grammar accepts it (via the caseless prefix `skip`) as a SKIP directive. -/
theorem c3_counterexample :
    (directive "skipped 3 tests").isSome = true ∧
    directive "skipped 3 tests" = some { kind := "SKIP", reason := "skipped 3 tests" } ∧
    (firstWord "skipped 3 tests").data.map lowerChar ≠ "todo".data ∧
    (firstWord "skipped 3 tests").data.map lowerChar ≠ "skip".data := by
  decide

/-- C3 amended: a trailing comment forms a directive exactly when its text
after `#`, past any blanks, begins case-insensitively with the four letters
`TODO` or `SKIP` — a prefix match with no word-boundary requirement.  The TODO
branch yields kind TODO with the remainder after the matched prefix as reason;
the SKIP branch yields kind SKIP with the whole comment text, the matched word
included verbatim, as reason; any other comment yields no directive. -/
theorem c3_directive_prefix (s : String) :
    directive s =
      (if List.map lowerChar ((skipWS s.data).take 4) = "todo".data then
        some { kind := "TODO", reason := String.mk ((skipWS s.data).drop 4) }
      else if List.map lowerChar ((skipWS s.data).take 4) = "skip".data then
        some { kind := "SKIP", reason := s }
      else none) := by
  simp only [directive, directiveChars, caselessLit]
  have ht : ("todo".data).length = 4 := rfl
  have hs : ("skip".data).length = 4 := rfl
  rw [ht, hs]
  by_cases h1 : List.take 4 (List.map lowerChar (skipWS s.data)) = "todo".data
  · simp [h1]
  · by_cases h2 : List.take 4 (List.map lowerChar (skipWS s.data)) = "skip".data
    · simp [h1, h2]
    · simp [h1, h2]

/-- C4: in a bail-free document every entry yields exactly one classified test
(no abort), an entry's explicit number, when present, becomes the classified
test's resolved number (the running number `j + 1` is used when absent), and
an explicit number differing from the running number is reported among the
warnings. -/
theorem c4_sequence_anomaly (doc : Document) (j : Nat)
    (hb : doc.tests.all (fun e => !e.isBail) = true)
    (hj : j < doc.tests.length) :
    ((mkTAPSummary doc).passedTests.length + (mkTAPSummary doc).failedTests.length
      = doc.tests.length) ∧
    (∀ status tn desc dir, doc.tests[j] = Entry.test status tn desc dir →
      (mkTAPTest status (tn.getD (j + 1)) dir ∈ (mkTAPSummary doc).passedTests ∨
       mkTAPTest status (tn.getD (j + 1)) dir ∈ (mkTAPSummary doc).failedTests) ∧
      (∀ n, tn = some n → n ≠ j + 1 → n ∈ (mkTAPSummary doc).warnings)) := by
  have hb1 : ∀ e ∈ doc.tests, e.isBail = false := fun e he => by
    simpa using List.all_eq_true.mp hb e he
  constructor
  · rw [mkTAPSummary_passedTests, mkTAPSummary_failedTests,
      length_filter_add_length_filter_not]
    exact classifiedTests_length hb1 0
  · intro status tn desc dir he
    have hmem : mkTAPTest status (tn.getD (0 + j + 1)) dir ∈ classifiedTests 0 doc.tests :=
      classifiedTests_getElem hb1 hj he
    rw [Nat.zero_add] at hmem
    constructor
    · cases hp : (mkTAPTest status (tn.getD (j + 1)) dir).passed
      · right
        rw [mkTAPSummary_failedTests]
        exact List.mem_filter.mpr ⟨hmem, by simp [hp]⟩
      · left
        rw [mkTAPSummary_passedTests]
        exact List.mem_filter.mpr ⟨hmem, by simp [hp]⟩
    · intro n hn hne
      rw [mkTAPSummary_warnings]
      subst hn
      exact seqWarnings_mem hb1 hj he (by omega)

/-- Witness for C4: first entry `ok 3` is out of sequence (running number 1),
so 3 is reported and both entries are still classified. -/
theorem c4_sequence_anomaly_witness :
    ((mkTAPSummary ⟨none, none, [Entry.test "ok" (some 3) none none,
        Entry.test "not ok" none none none]⟩).passedTests.length +
      (mkTAPSummary ⟨none, none, [Entry.test "ok" (some 3) none none,
        Entry.test "not ok" none none none]⟩).failedTests.length = 2) ∧
    3 ∈ (mkTAPSummary ⟨none, none, [Entry.test "ok" (some 3) none none,
        Entry.test "not ok" none none none]⟩).warnings := by
  have h := c4_sequence_anomaly ⟨none, none, [Entry.test "ok" (some 3) none none,
    Entry.test "not ok" none none none]⟩ 0 (by decide) (by decide)
  exact ⟨h.1, (h.2 "ok" (some 3) none none rfl).2 3 rfl (by decide)⟩

/-- C5: a classified test is in the passed list only if its status was `ok`
and in the failed list only if not (`passed` and `failed` are mutually
exclusive, and in a bail-free document exhaustive over the entries); a TODO
test that passes is also a bonus test; a TODO test that fails is in the
failed list and not in the bonus list. -/
theorem c5_todo_bonus (doc : Document) (t : TAPTest) (status : String) (n : Nat)
    (dir : Option Directive) :
    (mkTAPTest status n dir).passed = (status == "ok") ∧
    (¬(t ∈ (mkTAPSummary doc).passedTests ∧ t ∈ (mkTAPSummary doc).failedTests)) ∧
    (t ∈ (mkTAPSummary doc).passedTests → t.passed = true) ∧
    (t ∈ (mkTAPSummary doc).failedTests → t.passed = false) ∧
    (t ∈ (mkTAPSummary doc).todoTests → t.passed = true →
      t ∈ (mkTAPSummary doc).bonusTests) ∧
    (t ∈ (mkTAPSummary doc).todoTests → t.passed = false →
      t ∈ (mkTAPSummary doc).failedTests ∧ t ∉ (mkTAPSummary doc).bonusTests) ∧
    (doc.tests.all (fun e => !e.isBail) = true →
      (mkTAPSummary doc).passedTests.length + (mkTAPSummary doc).failedTests.length
        = doc.tests.length) := by
  have hpassed : t ∈ (mkTAPSummary doc).passedTests → t.passed = true := by
    intro h
    rw [mkTAPSummary_passedTests] at h
    simpa using (List.mem_filter.mp h).2
  have hfailed : t ∈ (mkTAPSummary doc).failedTests → t.passed = false := by
    intro h
    rw [mkTAPSummary_failedTests] at h
    simpa using (List.mem_filter.mp h).2
  refine ⟨rfl, ?_, hpassed, hfailed, ?_, ?_, ?_⟩
  · rintro ⟨h1, h2⟩
    rw [hpassed h1] at hfailed
    cases hfailed h2
  · intro htodo hp
    rw [mkTAPSummary_todoTests] at htodo
    have hmf := List.mem_filter.mp htodo
    rw [mkTAPSummary_bonusTests]
    exact List.mem_filter.mpr ⟨hmf.1, by simp [hp]; simpa using hmf.2⟩
  · intro htodo hp
    rw [mkTAPSummary_todoTests] at htodo
    have hmf := List.mem_filter.mp htodo
    constructor
    · rw [mkTAPSummary_failedTests]
      exact List.mem_filter.mpr ⟨hmf.1, by simp [hp]⟩
    · intro hbon
      rw [mkTAPSummary_bonusTests] at hbon
      have hx := (List.mem_filter.mp hbon).2
      rw [Bool.and_eq_true] at hx
      rw [hp] at hx
      cases hx.2
  · intro hb
    have hb1 : ∀ e ∈ doc.tests, e.isBail = false := fun e he => by
      simpa using List.all_eq_true.mp hb e he
    rw [mkTAPSummary_passedTests, mkTAPSummary_failedTests,
      length_filter_add_length_filter_not]
    exact classifiedTests_length hb1 0

/-- Witness for C5 at scenario B (`1..3`, `ok 1`, `not ok 2 # TODO pending`,
`ok 3`): the failing TODO test number 2 is in the todo and failed lists but
not in the bonus list. -/
theorem c5_todo_bonus_witness :
    mkTAPTest "not ok" 2 (some { kind := "TODO", reason := " pending" }) ∈
      (mkTAPSummary ⟨none, some 3, [Entry.test "ok" (some 1) none none,
        Entry.test "not ok" (some 2) none
          (some { kind := "TODO", reason := " pending" }),
        Entry.test "ok" (some 3) none none]⟩).failedTests ∧
    mkTAPTest "not ok" 2 (some { kind := "TODO", reason := " pending" }) ∉
      (mkTAPSummary ⟨none, some 3, [Entry.test "ok" (some 1) none none,
        Entry.test "not ok" (some 2) none
          (some { kind := "TODO", reason := " pending" }),
        Entry.test "ok" (some 3) none none]⟩).bonusTests := by
  have h := c5_todo_bonus ⟨none, some 3, [Entry.test "ok" (some 1) none none,
    Entry.test "not ok" (some 2) none
      (some { kind := "TODO", reason := " pending" }),
    Entry.test "ok" (some 3) none none]⟩
    (mkTAPTest "not ok" 2 (some { kind := "TODO", reason := " pending" }))
    "not ok" 2 (some { kind := "TODO", reason := " pending" })
  exact h.2.2.2.2.2.1 (by decide) (by decide)

/-- C6: the expected test-number range of a document is exactly the interval
from 1 to the plan's upper bound when a plan was declared, and to the number
of parsed entries otherwise. -/
theorem c6_expected_range (doc : Document) (k : Nat) :
    (k ∈ expectedRange doc ↔
      1 ≤ k ∧ k ≤ (match doc.plan with
        | some ubound => ubound
        | none => doc.tests.length)) ∧
    (expectedRange doc).length = (match doc.plan with
      | some ubound => ubound
      | none => doc.tests.length) := by
  cases hp : doc.plan with
  | none =>
    refine ⟨?_, ?_⟩
    · simp only [expectedRange, hp, List.mem_range'_1]
      omega
    · simp [expectedRange, hp]
  | some ubound =>
    refine ⟨?_, ?_⟩
    · simp only [expectedRange, hp, List.mem_range'_1]
      omega
    · simp [expectedRange, hp]

/-- C7: banner noise before the version line, before the plan line and before
the test line does not change the parse result; both inputs yield a summary
with version 14 whose passed list is exactly test 1. -/
theorem c7_noise_tolerance :
    parseTAP ["foo bar", "TAP version 14", "baz", "1..1", "qux", "ok 1 - works"] =
      parseTAP ["TAP version 14", "1..1", "ok 1 - works"] ∧
    (parseTAP ["foo bar", "TAP version 14", "baz", "1..1", "qux", "ok 1 - works"]).map
      TAPSummary.version = some 14 ∧
    (parseTAP ["foo bar", "TAP version 14", "baz", "1..1", "qux", "ok 1 - works"]).map
      (fun s => s.passedTests.map TAPTest.num) = some [1] := by
  decide

/-- The version stored in an assembled document is the value of the version
line found by the skip-ahead, if any. -/
theorem tapParser_version {lines : List String} {doc : Document}
    (h : tapParser lines = some doc) :
    doc.version = (match findVersion lines with
      | some (n, _) => some n
      | none => none) := by
  unfold tapParser at h
  cases hfv : findVersion lines with
  | some p =>
    obtain ⟨n, rest⟩ := p
    rw [hfv] at h
    simp only at h
    split at h
    · cases h
    · injection h with h2
      subst h2
      rfl
  | none =>
    rw [hfv] at h
    simp only at h
    split at h
    · cases h
    · injection h with h2
      subst h2
      rfl

/-- C8: the summary's version is the integer parsed from the version line when
one is present, and 12 otherwise. -/
theorem c8_version_field (lines : List String) (doc : Document)
    (h : tapParser lines = some doc) :
    (mkTAPSummary doc).version =
      (match findVersion lines with
       | some (n, _) => n
       | none => 12) := by
  rw [mkTAPSummary_version, tapParser_version h]
  cases hfv : findVersion lines with
  | some p => obtain ⟨n, rest⟩ := p; rfl
  | none => rfl

/-- Witness for C8: a version line present (14) and a document without one
(default 12). -/
theorem c8_version_field_witness :
    (mkTAPSummary ⟨some 14, some 1, [Entry.test "ok" (some 1) (some "works") none]⟩).version
      = 14 := by
  have h := c8_version_field ["TAP version 14", "1..1", "ok 1 - works"]
    ⟨some 14, some 1, [Entry.test "ok" (some 1) (some "works") none]⟩ (by decide)
  simpa using h

/-- C9: the textual report is a pure function of the summary value and the two
flags: rendering twice with identical flags yields identical text. -/
theorem c9_render_deterministic (s : TAPSummary) (showPassed showAll : Bool) :
    s.summary showPassed showAll = s.summary showPassed showAll := rfl

/-- C10: a classified test never carries both the skipped and the todo flag
(the single directive kind sets at most one of them), and consequently no test
of the skipped list occurs in the todo list. -/
theorem c10_skip_todo_exclusive (status : String) (n : Nat) (dir : Option Directive)
    (doc : Document) :
    ((mkTAPTest status n dir).skipped && (mkTAPTest status n dir).todo) = false ∧
    (mkTAPSummary doc).skippedTests.all
      (fun t => !(decide (t ∈ (mkTAPSummary doc).todoTests))) = true := by
  refine ⟨mkTAPTest_skipped_and_todo status n dir, ?_⟩
  rw [List.all_eq_true]
  intro t ht
  rw [mkTAPSummary_skippedTests] at ht
  have htodo : t.todo = false := by
    rcases List.mem_append.mp ht with h1 | h2
    · have hmf := List.mem_filter.mp h1
      exact classifiedTests_skipped_not_todo hmf.1 (by simpa using hmf.2)
    · exact (bailSkipped_mem h2).2
  have hnot : t ∉ (mkTAPSummary doc).todoTests := by
    rw [mkTAPSummary_todoTests]
    intro hcon
    have hx := (List.mem_filter.mp hcon).2
    rw [htodo] at hx
    cases hx
  simp [hnot]
